import Mathlib

/-!
# Verification of the memegen MCP server (src/main.py)

Shallow embedding of the server in `src/main.py`: the bearer-token gate
(`SimpleBearerAuthProvider.load_access_token`), the `validate` and
`add_numbers` tools, and the `generate_meme` tool with its handling of the
upstream HTTP response.

Modelling conventions:
* Python values reachable from a parsed JSON body are the inductive `PyVal`
  (`None`, `bool`, `int`, `str`, `list`, `dict`).  JSON floats are not needed
  by any response shape considered here and are omitted.
* Python `str()` / `repr()` rendering is `pyStr` / `pyRepr`.  For strings
  inside containers, `repr` is modelled as surrounding the text with single
  quotes; the escaping rules of Python string repr are elided, as no
  behaviour considered here depends on them.
* A raised Python exception is modelled as the `Except.error` branch carrying
  `str(e)` of the exception.
* The single awaited HTTP POST of `generate_meme` is modelled by an
  environment `upstream : PostRequest → UpstreamOutcome`; the function
  returns its text output together with the list of requests it issued.
* Numeric tool inputs (`float` in the source) are modelled over `Rat`, with
  exact addition standing in for IEEE addition.
-/

mutual

/-- A Python value as obtained from `resp.json()` in `generate_meme`. -/
inductive PyVal : Type where
  | none : PyVal
  | bool : Bool → PyVal
  | int : Int → PyVal
  | str : String → PyVal
  | list : Elems → PyVal
  | dict : Fields → PyVal

/-- The elements of a Python list value. -/
inductive Elems : Type where
  | nil : Elems
  | cons : PyVal → Elems → Elems

/-- The key/value entries of a Python dict value (JSON object keys are
strings). -/
inductive Fields : Type where
  | nil : Fields
  | cons : String → PyVal → Fields → Fields

end

/-- Dictionary lookup: the value stored under `key`, if any. -/
def Fields.get? : Fields → String → Option PyVal
  | .nil, _ => Option.none
  | .cons k v rest, key => if k = key then some v else Fields.get? rest key

/-- Python `d.get(key, dflt)`: the stored value, or `dflt` when absent. -/
def Fields.getD (fs : Fields) (key : String) (dflt : PyVal) : PyVal :=
  match Fields.get? fs key with
  | some v => v
  | Option.none => dflt

mutual

/-- Python `repr()` of a value (string escaping elided). -/
def pyRepr : PyVal → String
  | .none => "None"
  | .bool true => "True"
  | .bool false => "False"
  | .int n => toString n
  | .str s => "\x27" ++ s ++ "\x27"
  | .list xs => "[" ++ reprElems xs ++ "]"
  | .dict fs => "\x7b" ++ reprFields fs ++ "\x7d"

/-- Comma-separated `repr` of list elements. -/
def reprElems : Elems → String
  | .nil => ""
  | .cons v .nil => pyRepr v
  | .cons v rest => pyRepr v ++ ", " ++ reprElems rest

/-- Comma-separated `repr` of dict entries. -/
def reprFields : Fields → String
  | .nil => ""
  | .cons k v .nil => "\x27" ++ k ++ "\x27: " ++ pyRepr v
  | .cons k v rest => "\x27" ++ k ++ "\x27: " ++ pyRepr v ++ ", " ++ reprFields rest

end

/-- Python `str()` of a value, as used by f-string interpolation: a string
renders as itself, everything else as its `repr`. -/
def pyStr : PyVal → String
  | .str s => s
  | v => pyRepr v

/-- Python truthiness, as used by `if not data.get("success")`. -/
def truthy : PyVal → Bool
  | .none => false
  | .bool b => b
  | .int n => !(n == 0)
  | .str s => !(s.isEmpty)
  | .list Elems.nil => false
  | .list _ => true
  | .dict Fields.nil => false
  | .dict _ => true

/-- Python type name of a value, as it appears in `AttributeError` messages. -/
def pyTypeName : PyVal → String
  | .none => "NoneType"
  | .bool _ => "bool"
  | .int _ => "int"
  | .str _ => "str"
  | .list _ => "list"
  | .dict _ => "dict"

/-- `str()` of the `AttributeError` raised by `v.get(...)` when `v` is not a
dict. -/
def noGetAttrMsg (v : PyVal) : String :=
  "\x27" ++ pyTypeName v ++ "\x27 object has no attribute \x27get\x27"

/-- Python `v.get(key)`: `None` when the key is absent; raises
`AttributeError` when `v` is not a dict. -/
def pyGet : PyVal → String → Except String PyVal
  | .dict fs, key => .ok (Fields.getD fs key .none)
  | v, _ => .error (noGetAttrMsg v)

/-- Python `v.get(key, dflt)` with an explicit default. -/
def pyGetD : PyVal → String → PyVal → Except String PyVal
  | .dict fs, key, dflt => .ok (Fields.getD fs key dflt)
  | v, _, _ => .error (noGetAttrMsg v)

/-- The hardcoded bearer secret (`TOKEN = 'auth_token'`, line 14). -/
def TOKEN : String := "auth_token"

/-- The hardcoded phone-number string (`MY_NUMBER`, line 15). -/
def MY_NUMBER : String := "919818039142"

/-- An MCP access token as constructed by `load_access_token` (lines 29-34). -/
structure AccessToken where
  token : String
  client_id : String
  scopes : List String
  expires_at : Option Nat
deriving DecidableEq

/-- `SimpleBearerAuthProvider.load_access_token` (lines 27-35): compare the
presented token with the stored secret; on a match return the wildcard-scope
access token, otherwise `None`. -/
def load_access_token (selfToken : String) (token : String) : Option AccessToken :=
  if token = selfToken then
    some ⟨token, "math-client", ["*"], Option.none⟩
  else
    Option.none

/-- One `TextContent` item of a tool result (`mcp.types.TextContent`). -/
structure TextContent where
  type : String
  text : String
deriving DecidableEq

/-- The `validate` tool (lines 42-44): returns `MY_NUMBER`. -/
def validate : String := MY_NUMBER

/-- The `add_numbers` tool (lines 48-54), numbers modelled over `Rat`. -/
def add_numbers (number1 number2 : Rat) : List TextContent :=
  let result := number1 + number2
  [⟨"text", "The sum of " ++ toString number1 ++ " and " ++ toString number2 ++
      " is " ++ toString result⟩]

/-- The outbound POST issued by `generate_meme` (lines 68-72). -/
structure PostRequest where
  url : String
  topic : String
  articleIndex : Nat
  timeoutSecs : Nat
deriving DecidableEq

/-- The fixed upstream endpoint (line 69). -/
def memeApiUrl : String := "https://memegen-lb2x.onrender.com/puch_generate_meme"

/-- What the awaited HTTP interaction produces, seen from the `try` block:
either an exception was raised while connecting/sending/awaiting (carrying
`str(e)`), or a response with a status arrived, in which case awaiting
`resp.text()` or `resp.json()` may in turn succeed or raise. -/
inductive UpstreamOutcome : Type where
  | raised : String → UpstreamOutcome
  | response : Nat → Except String String → Except String PyVal → UpstreamOutcome

/-- The `except Exception` branch of `generate_meme` (lines 94-95). -/
def excText (e : String) : List TextContent :=
  [⟨"text", "Exception occurred: " ++ e⟩]

/-- The success branch of `generate_meme` (lines 82-92), evaluated in source
order: `data["memeUrl"]` first (raising `KeyError` when absent, whose `str`
is the quoted key), then `data.get("article"/"caption", {})`, then the four
`.get` calls inside the f-string; the first raise wins and propagates to the
`except` branch. -/
def successText (topic : String) (fs : Fields) : Except String String :=
  match Fields.get? fs "memeUrl" with
  | Option.none => .error "\x27memeUrl\x27"
  | some memeUrl =>
    match pyGet (Fields.getD fs "article" (.dict Fields.nil)) "title" with
    | .error e => .error e
    | .ok title =>
      match pyGet (Fields.getD fs "article" (.dict Fields.nil)) "description" with
      | .error e => .error e
      | .ok description =>
        match pyGetD (Fields.getD fs "caption" (.dict Fields.nil)) "topText" (.str "") with
        | .error e => .error e
        | .ok topText =>
          match pyGetD (Fields.getD fs "caption" (.dict Fields.nil)) "bottomText" (.str "") with
          | .error e => .error e
          | .ok bottomText =>
            .ok ("**Meme Generated!**\nTopic: " ++ topic ++
              "\n\nArticle: " ++ pyStr title ++
              "\nDescription: " ++ pyStr description ++
              "\nCaption: " ++ pyStr topText ++ " / " ++ pyStr bottomText ++
              "\nMeme URL: " ++ pyStr memeUrl)

/-- Handling of an arrived HTTP response (lines 73-92): non-200 statuses
embed the body text; otherwise the parsed JSON envelope is inspected.  A
non-dict body raises `AttributeError` at `data.get("success")`; any raise
reaches the `except` branch and becomes `excText`. -/
def handleResponse (topic : String) (status : Nat)
    (textR : Except String String) (jsonR : Except String PyVal) :
    List TextContent :=
  if status ≠ 200 then
    match textR with
    | .error e => excText e
    | .ok body => [⟨"text", "API request failed: " ++ body⟩]
  else
    match jsonR with
    | .error e => excText e
    | .ok (.dict fs) =>
      if !(truthy (Fields.getD fs "success" .none)) then
        [⟨"text", "Error: " ++ pyStr (Fields.getD fs "error" (.str "Unknown error"))⟩]
      else
        match successText topic fs with
        | .ok t => [⟨"text", t⟩]
        | .error e => excText e
    | .ok v => excText (noGetAttrMsg v)

/-- The whole `try`/`except` body applied to the outcome of the single
awaited POST. -/
def handleOutcome (topic : String) : UpstreamOutcome → List TextContent
  | .raised e => excText e
  | .response status textR jsonR => handleResponse topic status textR jsonR

/-- The `generate_meme` tool (lines 57-95): issue one POST to the fixed URL
with body `\x7btopic, articleIndex\x7d` and a 60-second timeout, and turn
the outcome into text.  The first component is the returned
`list[TextContent]`; the second is the list of requests issued. -/
def generate_meme (upstream : PostRequest → UpstreamOutcome) (topic : String)
    (article_index : Nat) : List TextContent × List PostRequest :=
  let req : PostRequest := ⟨memeApiUrl, topic, article_index, 60⟩
  (handleOutcome topic (upstream req), [req])

/-- `generate_meme` invoked without `article_index`, whose source default is
`0` (line 60). -/
def generate_meme_default (upstream : PostRequest → UpstreamOutcome)
    (topic : String) : List TextContent × List PostRequest :=
  generate_meme upstream topic 0

/-- `pat` occurs verbatim inside `s`. -/
def strContains (s pat : String) : Prop :=
  ∃ pre post : String, s = pre ++ pat ++ post

/-- The `article` object of the success envelope considered in the spec:
`\x7btitle: "T", description: "D"\x7d`. -/
def articleC6 : Fields :=
  Fields.cons "title" (.str "T") (Fields.cons "description" (.str "D") Fields.nil)

/-- The `caption` object of the success envelope considered in the spec:
`\x7btopText: "X", bottomText: "Y"\x7d`. -/
def captionC6 : Fields :=
  Fields.cons "topText" (.str "X") (Fields.cons "bottomText" (.str "Y") Fields.nil)

/-- The full success envelope considered in the spec: `\x7bsuccess: true,
memeUrl: "U", article: ..., caption: ...\x7d`. -/
def envelopeC6 : Fields :=
  Fields.cons "success" (.bool true)
    (Fields.cons "memeUrl" (.str "U")
      (Fields.cons "article" (.dict articleC6)
        (Fields.cons "caption" (.dict captionC6) Fields.nil)))

theorem strAppend_assoc (a b c : String) : a ++ b ++ c = a ++ (b ++ c) := by
  apply String.ext
  simp [String.data_append, List.append_assoc]

theorem strAppend_empty (a : String) : a ++ "" = a := by
  apply String.ext
  simp [String.data_append]

theorem strContains_of_eq {s pre pat post : String}
    (h : s = pre ++ (pat ++ post)) : strContains s pat :=
  ⟨pre, post, by rw [h, strAppend_assoc]⟩

theorem mem_data_of_strContains {s pat : String} (h : strContains s pat)
    {c : Char} (hc : c ∈ pat.data) : c ∈ s.data := by
  obtain ⟨pre, post, rfl⟩ := h
  simp only [String.data_append, List.mem_append]
  exact Or.inl (Or.inr hc)

/-- C3: `load_access_token` yields the `math-client` principal with wildcard
scope and no expiry exactly when the presented token equals the stored
secret, and the denial value `none` exactly otherwise. -/
theorem load_access_token_correct (secret t : String) :
    (load_access_token secret t = some ⟨t, "math-client", ["*"], Option.none⟩
      ↔ t = secret) ∧
    (load_access_token secret t = Option.none ↔ t ≠ secret) := by
  unfold load_access_token
  by_cases h : t = secret <;> simp [h]

/-- Witness for C3 at concrete tokens: the configured secret is accepted with
the descriptor, and a different token is denied. -/
theorem load_access_token_correct_witness :
    load_access_token TOKEN "auth_token"
        = some ⟨"auth_token", "math-client", ["*"], Option.none⟩ ∧
    load_access_token TOKEN "wrong-token" = Option.none :=
  ⟨(load_access_token_correct TOKEN "auth_token").1.mpr rfl,
   (load_access_token_correct TOKEN "wrong-token").2.mpr (by decide)⟩

/-- C9: the `validate` tool takes no arguments and always returns the fixed
hardcoded string `919818039142` (the value of `MY_NUMBER`). -/
theorem validate_returns_fixed_number :
    validate = "919818039142" ∧ validate = MY_NUMBER :=
  ⟨rfl, rfl⟩

/-- C7: `add_numbers` returns a single human-readable sentence whose text
contains the rendered value of `a + b`. -/
theorem add_numbers_contains_sum (a b : Rat) :
    ∃ s : String, add_numbers a b = [⟨"text", s⟩] ∧
      strContains s (toString (a + b)) := by
  refine ⟨_, rfl,
    "The sum of " ++ toString a ++ " and " ++ toString b ++ " is ", "", ?_⟩
  rw [strAppend_empty]

/-- Shared shape lemma: on a 200 response whose body is a dict with truthy
`success`, a present `memeUrl`, and dict-or-defaulted `article`/`caption`
fields, `generate_meme` returns exactly the formatted block of lines 87-91. -/
theorem generate_meme_success_shape (up : PostRequest → UpstreamOutcome)
    (topic : String) (i : Nat) (textR : Except String String) (fs : Fields)
    (hup : up ⟨memeApiUrl, topic, i, 60⟩
      = .response 200 textR (.ok (.dict fs)))
    (hsucc : truthy (Fields.getD fs "success" PyVal.none) = true)
    (u : PyVal) (hu : Fields.get? fs "memeUrl" = some u)
    (afs cfs : Fields)
    (ha : Fields.getD fs "article" (.dict Fields.nil) = .dict afs)
    (hc : Fields.getD fs "caption" (.dict Fields.nil) = .dict cfs) :
    (generate_meme up topic i).1 = [⟨"text",
      "**Meme Generated!**\nTopic: " ++ topic ++
      "\n\nArticle: " ++ pyStr (Fields.getD afs "title" PyVal.none) ++
      "\nDescription: " ++ pyStr (Fields.getD afs "description" PyVal.none) ++
      "\nCaption: " ++ pyStr (Fields.getD cfs "topText" (.str "")) ++ " / " ++
      pyStr (Fields.getD cfs "bottomText" (.str "")) ++
      "\nMeme URL: " ++ pyStr u⟩] := by
  show handleOutcome topic (up ⟨memeApiUrl, topic, i, 60⟩) = _
  rw [hup]
  have step : handleOutcome topic (.response 200 textR (.ok (.dict fs)))
      = (if (!truthy (Fields.getD fs "success" PyVal.none)) = true then
          [⟨"text", "Error: " ++ pyStr (Fields.getD fs "error" (PyVal.str "Unknown error"))⟩]
        else match successText topic fs with
          | .ok t => [⟨"text", t⟩]
          | .error e => excText e) := rfl
  rw [step, hsucc]
  rw [if_neg (by simp)]
  unfold successText
  rw [hu, ha, hc]
  rfl

/-- C8: every invocation of `generate_meme` issues exactly one POST, to the
fixed external URL, with body fields `topic` and `articleIndex` and a
60-second timeout — regardless of the outcome, so no retry happens — and
omitting `article_index` uses the default `0`. -/
theorem generate_meme_one_post (up : PostRequest → UpstreamOutcome)
    (topic : String) (i : Nat) :
    (generate_meme up topic i).2 = [⟨memeApiUrl, topic, i, 60⟩] ∧
    memeApiUrl = "https://memegen-lb2x.onrender.com/puch_generate_meme" ∧
    generate_meme_default up topic = generate_meme up topic 0 :=
  ⟨rfl, rfl, rfl⟩

/-- C10: every return path of `generate_meme` — exception, non-200 status,
falsy `success`, and the success block alike — yields a list of exactly one
`TextContent` whose `type` is `"text"`. -/
theorem generate_meme_single_text_item (up : PostRequest → UpstreamOutcome)
    (topic : String) (i : Nat) :
    ∃ s : String, (generate_meme up topic i).1 = [⟨"text", s⟩] := by
  show ∃ s, handleOutcome topic (up ⟨memeApiUrl, topic, i, 60⟩) = [⟨"text", s⟩]
  cases up ⟨memeApiUrl, topic, i, 60⟩ with
  | raised e => exact ⟨_, rfl⟩
  | response status textR jsonR =>
    show ∃ s, handleResponse topic status textR jsonR = [⟨"text", s⟩]
    unfold handleResponse excText
    split
    · cases textR <;> exact ⟨_, rfl⟩
    · cases jsonR with
      | error e => exact ⟨_, rfl⟩
      | ok v =>
        cases v with
        | dict fs =>
          show ∃ s,
            (if (!truthy (Fields.getD fs "success" PyVal.none)) = true then
              [TextContent.mk "text"
                ("Error: " ++ pyStr (Fields.getD fs "error" (PyVal.str "Unknown error")))]
            else match successText topic fs with
              | Except.ok t => [TextContent.mk "text" t]
              | Except.error e => [TextContent.mk "text" ("Exception occurred: " ++ e)])
            = [TextContent.mk "text" s]
          by_cases hs : (!truthy (Fields.getD fs "success" PyVal.none)) = true
          · rw [if_pos hs]
            exact ⟨_, rfl⟩
          · rw [if_neg hs]
            cases successText topic fs <;> exact ⟨_, rfl⟩
        | none => exact ⟨_, rfl⟩
        | bool b => exact ⟨_, rfl⟩
        | int n => exact ⟨_, rfl⟩
        | str s => exact ⟨_, rfl⟩
        | list xs => exact ⟨_, rfl⟩

/-- C2: whenever the HTTP interaction raises — while connecting or awaiting
(`raised`), while reading the body text of a non-200 response, or while
parsing the JSON of a 200 response — `generate_meme` returns the ordinary
text result `Exception occurred: <str(e)>`; being a total function of the
outcome, it propagates no exception. -/
theorem generate_meme_catches_exceptions (up : PostRequest → UpstreamOutcome)
    (topic : String) (i : Nat) (e : String) :
    (up ⟨memeApiUrl, topic, i, 60⟩ = .raised e →
      (generate_meme up topic i).1 = [⟨"text", "Exception occurred: " ++ e⟩]) ∧
    (∀ status jsonR,
      up ⟨memeApiUrl, topic, i, 60⟩ = .response status (.error e) jsonR →
      status ≠ 200 →
      (generate_meme up topic i).1 = [⟨"text", "Exception occurred: " ++ e⟩]) ∧
    (∀ textR, up ⟨memeApiUrl, topic, i, 60⟩ = .response 200 textR (.error e) →
      (generate_meme up topic i).1 = [⟨"text", "Exception occurred: " ++ e⟩]) := by
  refine ⟨?_, ?_, ?_⟩
  · intro h
    show handleOutcome topic (up ⟨memeApiUrl, topic, i, 60⟩) = _
    rw [h]
    rfl
  · intro status jsonR h hs
    show handleOutcome topic (up ⟨memeApiUrl, topic, i, 60⟩) = _
    rw [h]
    show handleResponse topic status (Except.error e) jsonR = _
    unfold handleResponse
    rw [if_pos hs]
    rfl
  · intro textR h
    show handleOutcome topic (up ⟨memeApiUrl, topic, i, 60⟩) = _
    rw [h]
    rfl

/-- Witness for C2: a connection failure, a non-200 response whose body read
fails, and a 200 response with malformed JSON each yield the exception
text. -/
theorem generate_meme_catches_exceptions_witness :
    (generate_meme (fun _ => .raised "Cannot connect to host") "news" 0).1
      = [⟨"text", "Exception occurred: Cannot connect to host"⟩] ∧
    (generate_meme (fun _ => .response 503 (.error "Connection reset") (.error "x")) "news" 0).1
      = [⟨"text", "Exception occurred: Connection reset"⟩] ∧
    (generate_meme (fun _ => .response 200 (.ok "\x7bbad") (.error "Expecting value: line 1 column 1 (char 0)")) "news" 0).1
      = [⟨"text", "Exception occurred: Expecting value: line 1 column 1 (char 0)"⟩] :=
  ⟨(generate_meme_catches_exceptions _ "news" 0 "Cannot connect to host").1 rfl,
   (generate_meme_catches_exceptions _ "news" 0 "Connection reset").2.1 503 _ rfl
     (by decide),
   (generate_meme_catches_exceptions _ "news" 0
     "Expecting value: line 1 column 1 (char 0)").2.2 _ rfl⟩

/-- C4: a response with a status other than 200 makes `generate_meme` return
an error-text result that embeds the raw response body. -/
theorem generate_meme_non200_embeds_body (up : PostRequest → UpstreamOutcome)
    (topic : String) (i status : Nat) (body : String)
    (jsonR : Except String PyVal)
    (hup : up ⟨memeApiUrl, topic, i, 60⟩ = .response status (.ok body) jsonR)
    (hs : status ≠ 200) :
    (generate_meme up topic i).1 = [⟨"text", "API request failed: " ++ body⟩] ∧
    strContains ("API request failed: " ++ body) body := by
  constructor
  · show handleOutcome topic (up ⟨memeApiUrl, topic, i, 60⟩) = _
    rw [hup]
    show handleResponse topic status (Except.ok body) jsonR = _
    unfold handleResponse
    rw [if_pos hs]
  · exact ⟨"API request failed: ", "", (strAppend_empty _).symm⟩

/-- Witness for C4: a status-500 response with body `Internal Server Error`
produces output text containing that body. -/
theorem generate_meme_non200_embeds_body_witness :
    (generate_meme
        (fun _ => .response 500 (.ok "Internal Server Error") (.error "x"))
        "news" 0).1
      = [⟨"text", "API request failed: Internal Server Error"⟩] ∧
    strContains ("API request failed: " ++ "Internal Server Error")
      "Internal Server Error" :=
  generate_meme_non200_embeds_body _ "news" 0 500 "Internal Server Error"
    (.error "x") rfl (by decide)

/-- C5: a 200 response whose parsed body is an object with a falsy `success`
field yields an error text embedding the `error` field rendered by `str()`,
with the literal fallback `Unknown error` when that field is absent. -/
theorem generate_meme_falsy_success (up : PostRequest → UpstreamOutcome)
    (topic : String) (i : Nat) (textR : Except String String) (fs : Fields)
    (hup : up ⟨memeApiUrl, topic, i, 60⟩
      = .response 200 textR (.ok (.dict fs)))
    (hfalsy : truthy (Fields.getD fs "success" PyVal.none) = false) :
    (generate_meme up topic i).1
      = [⟨"text", "Error: " ++ pyStr (Fields.getD fs "error" (PyVal.str "Unknown error"))⟩] ∧
    strContains ("Error: " ++ pyStr (Fields.getD fs "error" (PyVal.str "Unknown error")))
      (pyStr (Fields.getD fs "error" (PyVal.str "Unknown error"))) ∧
    (Fields.get? fs "error" = Option.none →
      (generate_meme up topic i).1 = [⟨"text", "Error: Unknown error"⟩]) := by
  have main : (generate_meme up topic i).1
      = [⟨"text", "Error: " ++ pyStr (Fields.getD fs "error" (PyVal.str "Unknown error"))⟩] := by
    show handleOutcome topic (up ⟨memeApiUrl, topic, i, 60⟩) = _
    rw [hup]
    have step : handleOutcome topic (.response 200 textR (.ok (.dict fs)))
        = (if (!truthy (Fields.getD fs "success" PyVal.none)) = true then
            [⟨"text", "Error: " ++ pyStr (Fields.getD fs "error" (PyVal.str "Unknown error"))⟩]
          else match successText topic fs with
            | .ok t => [⟨"text", t⟩]
            | .error e => excText e) := rfl
    rw [step, hfalsy]
    rfl
  refine ⟨main, ⟨"Error: ", "", (strAppend_empty _).symm⟩, fun h => ?_⟩
  have h1 : Fields.getD fs "error" (PyVal.str "Unknown error")
      = PyVal.str "Unknown error" := by
    unfold Fields.getD
    rw [h]
  rw [main, h1]
  rfl

/-- Witness for C5: the body `\x7bsuccess: false, error: "no articles
found"\x7d` produces output text containing `no articles found`, and a body
with falsy `success` and no `error` field produces the fallback text. -/
theorem generate_meme_falsy_success_witness :
    (generate_meme
        (fun _ => .response 200 (.ok "")
          (.ok (.dict (Fields.cons "success" (.bool false)
            (Fields.cons "error" (.str "no articles found") Fields.nil)))))
        "news" 0).1
      = [⟨"text", "Error: " ++ pyStr (Fields.getD
          (Fields.cons "success" (.bool false)
            (Fields.cons "error" (.str "no articles found") Fields.nil))
          "error" (PyVal.str "Unknown error"))⟩] ∧
    (generate_meme
        (fun _ => .response 200 (.ok "")
          (.ok (.dict (Fields.cons "success" (.bool false) Fields.nil))))
        "news" 0).1
      = [⟨"text", "Error: Unknown error"⟩] :=
  ⟨(generate_meme_falsy_success _ "news" 0 (.ok "")
      (Fields.cons "success" (.bool false)
        (Fields.cons "error" (.str "no articles found") Fields.nil))
      rfl rfl).1,
   (generate_meme_falsy_success _ "news" 0 (.ok "")
      (Fields.cons "success" (.bool false) Fields.nil) rfl rfl).2.2 rfl⟩

/-- Helper: a pattern occurring inside the literal part after the topic is
contained in the whole string. -/
theorem strContains_cat (A t R R1 pat R2 : String)
    (h : R1 ++ (pat ++ R2) = R) : strContains (A ++ t ++ R) pat := by
  refine ⟨A ++ t ++ R1, R2, ?_⟩
  rw [← h]
  simp only [strAppend_assoc]

/-- C6: on a 200 response carrying the full success envelope with memeUrl
`U`, article title `T`, description `D`, caption halves `X` and `Y`, the
output text of `generate_meme` contains `U`, `T`, `D`, `X`, `Y` verbatim
together with the request topic. -/
theorem generate_meme_success_contains_fields (up : PostRequest → UpstreamOutcome)
    (topic : String) (i : Nat) (textR : Except String String)
    (hup : up ⟨memeApiUrl, topic, i, 60⟩
      = .response 200 textR (.ok (.dict envelopeC6))) :
    (generate_meme up topic i).1 = [⟨"text",
      "**Meme Generated!**\nTopic: " ++ topic ++
      "\n\nArticle: T\nDescription: D\nCaption: X / Y\nMeme URL: U"⟩] ∧
    strContains ("**Meme Generated!**\nTopic: " ++ topic ++
      "\n\nArticle: T\nDescription: D\nCaption: X / Y\nMeme URL: U") "U" ∧
    strContains ("**Meme Generated!**\nTopic: " ++ topic ++
      "\n\nArticle: T\nDescription: D\nCaption: X / Y\nMeme URL: U") "T" ∧
    strContains ("**Meme Generated!**\nTopic: " ++ topic ++
      "\n\nArticle: T\nDescription: D\nCaption: X / Y\nMeme URL: U") "D" ∧
    strContains ("**Meme Generated!**\nTopic: " ++ topic ++
      "\n\nArticle: T\nDescription: D\nCaption: X / Y\nMeme URL: U") "X" ∧
    strContains ("**Meme Generated!**\nTopic: " ++ topic ++
      "\n\nArticle: T\nDescription: D\nCaption: X / Y\nMeme URL: U") "Y" ∧
    strContains ("**Meme Generated!**\nTopic: " ++ topic ++
      "\n\nArticle: T\nDescription: D\nCaption: X / Y\nMeme URL: U") topic := by
  have base := generate_meme_success_shape up topic i textR envelopeC6 hup rfl
    (PyVal.str "U") rfl articleC6 captionC6 rfl rfl
  refine ⟨?_, ?_, ?_, ?_, ?_, ?_,
    ⟨"**Meme Generated!**\nTopic: ",
     "\n\nArticle: T\nDescription: D\nCaption: X / Y\nMeme URL: U", rfl⟩⟩
  · rw [base]
    congr 1
    congr 1
    simp only [strAppend_assoc]
    rfl
  · exact strContains_cat _ topic _
      "\n\nArticle: T\nDescription: D\nCaption: X / Y\nMeme URL: " "U" "" rfl
  · exact strContains_cat _ topic _
      "\n\nArticle: " "T" "\nDescription: D\nCaption: X / Y\nMeme URL: U" rfl
  · exact strContains_cat _ topic _
      "\n\nArticle: T\nDescription: " "D" "\nCaption: X / Y\nMeme URL: U" rfl
  · exact strContains_cat _ topic _
      "\n\nArticle: T\nDescription: D\nCaption: " "X" " / Y\nMeme URL: U" rfl
  · exact strContains_cat _ topic _
      "\n\nArticle: T\nDescription: D\nCaption: X / " "Y" "\nMeme URL: U" rfl

/-- Witness for C6 at a concrete topic and upstream. -/
theorem generate_meme_success_contains_fields_witness :
    (generate_meme
        (fun _ => .response 200 (.ok "") (.ok (.dict envelopeC6)))
        "cats" 0).1 = [⟨"text",
      "**Meme Generated!**\nTopic: " ++ "cats" ++
      "\n\nArticle: T\nDescription: D\nCaption: X / Y\nMeme URL: U"⟩] :=
  (generate_meme_success_contains_fields _ "cats" 0 (.ok "") rfl).1

/-- C1 counterexample: a 200 response whose JSON body has a truthy `success`
but no `memeUrl` field does not produce the formatted block — the direct
index `data["memeUrl"]` raises `KeyError`, which the handler turns into
exception text that does not contain the block header. -/
theorem generate_meme_missing_memeUrl_counterexample :
    (generate_meme
        (fun _ => .response 200 (.ok "")
          (.ok (.dict (Fields.cons "success" (.bool true) Fields.nil))))
        "news" 0).1
      = [⟨"text", "Exception occurred: \x27memeUrl\x27"⟩] ∧
    ¬ strContains "Exception occurred: \x27memeUrl\x27" "**Meme Generated!**" := by
  constructor
  · rfl
  · intro h
    have hmem := @mem_data_of_strContains "Exception occurred: \x27memeUrl\x27"
      "**Meme Generated!**" h '*' (by decide)
    exact absurd hmem (by decide)

/-- C1 (amended): on a 200 response whose body is an object with truthy
`success`, the optional fields `article.title`, `article.description`,
`caption.topText`, `caption.bottomText` may be missing and the block is
still produced (missing article fields render as `None`, missing caption
fields as empty); but when `memeUrl` itself is missing the lookup raises
`KeyError` and the tool returns exception text instead of the block. -/
theorem generate_meme_missing_field_behaviour (up : PostRequest → UpstreamOutcome)
    (topic : String) (i : Nat) (textR : Except String String) (fs : Fields)
    (hup : up ⟨memeApiUrl, topic, i, 60⟩
      = .response 200 textR (.ok (.dict fs)))
    (hsucc : truthy (Fields.getD fs "success" PyVal.none) = true) :
    (Fields.get? fs "memeUrl" = Option.none →
      (generate_meme up topic i).1
        = [⟨"text", "Exception occurred: \x27memeUrl\x27"⟩]) ∧
    (∀ u afs cfs, Fields.get? fs "memeUrl" = some u →
      Fields.getD fs "article" (.dict Fields.nil) = .dict afs →
      Fields.getD fs "caption" (.dict Fields.nil) = .dict cfs →
      (generate_meme up topic i).1 = [⟨"text",
        "**Meme Generated!**\nTopic: " ++ topic ++
        "\n\nArticle: " ++ pyStr (Fields.getD afs "title" PyVal.none) ++
        "\nDescription: " ++ pyStr (Fields.getD afs "description" PyVal.none) ++
        "\nCaption: " ++ pyStr (Fields.getD cfs "topText" (.str "")) ++ " / " ++
        pyStr (Fields.getD cfs "bottomText" (.str "")) ++
        "\nMeme URL: " ++ pyStr u⟩]) := by
  constructor
  · intro hnone
    show handleOutcome topic (up ⟨memeApiUrl, topic, i, 60⟩) = _
    rw [hup]
    have step : handleOutcome topic (.response 200 textR (.ok (.dict fs)))
        = (if (!truthy (Fields.getD fs "success" PyVal.none)) = true then
            [⟨"text", "Error: " ++ pyStr (Fields.getD fs "error" (PyVal.str "Unknown error"))⟩]
          else match successText topic fs with
            | .ok t => [⟨"text", t⟩]
            | .error e => excText e) := rfl
    rw [step, hsucc]
    rw [if_neg (by simp)]
    unfold successText
    rw [hnone]
    rfl
  · intro u afs cfs hu ha hc
    exact generate_meme_success_shape up topic i textR fs hup hsucc u hu afs cfs ha hc

/-- Witness for C1 (amended): a body with only truthy `success` yields the
KeyError exception text; a body with `success` and `memeUrl` but neither
`article` nor `caption` still yields the block, with `None` and empty
renderings. -/
theorem generate_meme_missing_field_behaviour_witness :
    (generate_meme
        (fun _ => .response 200 (.ok "")
          (.ok (.dict (Fields.cons "success" (.bool true) Fields.nil))))
        "news" 0).1
      = [⟨"text", "Exception occurred: \x27memeUrl\x27"⟩] ∧
    (generate_meme
        (fun _ => .response 200 (.ok "")
          (.ok (.dict (Fields.cons "success" (.bool true)
            (Fields.cons "memeUrl" (.str "U") Fields.nil)))))
        "news" 0).1 = [⟨"text",
      "**Meme Generated!**\nTopic: " ++ "news" ++
      "\n\nArticle: " ++ pyStr (Fields.getD Fields.nil "title" PyVal.none) ++
      "\nDescription: " ++ pyStr (Fields.getD Fields.nil "description" PyVal.none) ++
      "\nCaption: " ++ pyStr (Fields.getD Fields.nil "topText" (.str "")) ++ " / " ++
      pyStr (Fields.getD Fields.nil "bottomText" (.str "")) ++
      "\nMeme URL: " ++ pyStr (.str "U")⟩] :=
  ⟨(generate_meme_missing_field_behaviour _ "news" 0 (.ok "")
      (Fields.cons "success" (.bool true) Fields.nil) rfl rfl).1 rfl,
   (generate_meme_missing_field_behaviour _ "news" 0 (.ok "")
      (Fields.cons "success" (.bool true)
        (Fields.cons "memeUrl" (.str "U") Fields.nil)) rfl rfl).2
     (.str "U") Fields.nil Fields.nil rfl rfl rfl⟩
